import Mathlib

/-!
Verification of the Discord-video-stream media transport engine.

This file contains a shallow embedding, in Lean 4, of the parts of the
code base that the specification's claims are about: the transport
encryptors (`src/dist/client/Streamer.js`), the base RTP packetizer and
the Opus/VP8 packetizers (`src/dist/client/packet/`), the UDP IP-discovery
handshake (`src/dist/client/voice/MediaUdp.js`), the H.264/H.265
parameter-set injection of the demuxer (`src/dist/media/LibavDemuxer.js`),
and the A/V sync wait loop of the pacing streams (`BaseMediaStream`).

Buffers are modelled as `List Nat` of byte values, JavaScript numbers used
as counters as `Nat` with explicit `% 2 ^ w` where the code wraps them,
and code that can throw as `Except String`.
-/

deriving instance DecidableEq for Except

set_option maxRecDepth 8000

namespace DiscordVideoStream

/-- `max_int16bit` from `utils.js`. -/
def max_int16bit : Nat := 2 ^ 16

/-- `max_int32bit` from `utils.js`. -/
def max_int32bit : Nat := 2 ^ 32

/-- The four big-endian bytes written by `Buffer.writeUInt32BE(v)`. -/
def be32 (v : Nat) : List Nat :=
  [v / 2 ^ 24 % 256, v / 2 ^ 16 % 256, v / 2 ^ 8 % 256, v % 256]

/-- The two big-endian bytes written by `Buffer.writeUInt16BE(v)` (also
`writeUIntBE(v, off, 2)`). -/
def be16 (v : Nat) : List Nat := [v / 2 ^ 8 % 256, v % 256]

/-- `Buffer.readUInt16BE(off)` on a byte list. -/
def readUInt16BE (buf : List Nat) (off : Nat) : Nat :=
  buf.getD off 0 * 256 + buf.getD (off + 1) 0

/-- `Buffer.readUInt32BE(off)` on a byte list. -/
def readUInt32BE (buf : List Nat) (off : Nat) : Nat :=
  buf.getD off 0 * 2 ^ 24 + buf.getD (off + 1) 0 * 2 ^ 16 +
    buf.getD (off + 2) 0 * 2 ^ 8 + buf.getD (off + 3) 0

/-! ## Transport encryptors (`src/dist/client/Streamer.js`)

Both `AES256TransportEncryptor` and `Chacha20TransportEncryptor` keep a
single number `_nonce`, initialized to 0.  Per `encrypt` call they
allocate a zero-filled nonce buffer of the AEAD's nonce width (12 bytes
for AES-256-GCM, 24 for XChaCha20-Poly1305), call
`nonceBuffer.writeUInt32BE(this._nonce)` — which writes at offset 0 —
and then set `this._nonce = (this._nonce + 1) % max_int32bit`.
The AEAD itself (WebCrypto / sodium) is external; we model the nonce
handling and the counter update. -/

/-- Encryptor state: the `_nonce` counter (starts at 0). -/
structure EncryptorState where
  nonce : Nat
deriving Repr, DecidableEq

/-- The 12-byte IV built by `AES256TransportEncryptor.encrypt`:
`Buffer.alloc(12)` followed by `writeUInt32BE(this._nonce)` at offset 0. -/
def aes256NonceBuffer (counter : Nat) : List Nat :=
  be32 counter ++ List.replicate 8 0

/-- The 24-byte nonce built by `Chacha20TransportEncryptor.encrypt`:
`Buffer.alloc(24)` followed by `writeUInt32BE(this._nonce)` at offset 0. -/
def chacha20NonceBuffer (counter : Nat) : List Nat :=
  be32 counter ++ List.replicate 20 0

/-- Counter update per `encrypt` call (identical in both encryptors):
`this._nonce = (this._nonce + 1) % max_int32bit`. -/
def encryptorStep (s : EncryptorState) : EncryptorState :=
  ⟨(s.nonce + 1) % max_int32bit⟩

/-- The nonce bytes appended to every wire packet by the packetizers:
`nonceBuffer.subarray(0, 4)` (see `AudioPacketizer.createPacket`,
`VideoPacketizerVP8.createPacket`, `makeRtcpSenderReport`). -/
def appendedNonceBytes (nonceBuffer : List Nat) : List Nat :=
  nonceBuffer.take 4

/-! ## NAL unit handling (`src/dist/media/LibavDemuxer.js`)

`h264AddParamSets` / `h265AddParamSets` work on the list of NAL units of
one access unit (`splitNalu`) and rebuild the Annex-B bytestream from a
NALU list (`mergeNalu`).  `AnnexBHelper.js` itself is not under `src/`;
the NALU-level split/merge round trip is therefore modelled as the
identity on NALU lists, and the two functions are embedded directly at
the NALU-list level, byte for byte faithful to `LibavDemuxer.js`
lines 79–139. -/

/-- Modelled from the spec: `H264Helpers.getUnitType` (in the missing
`AnnexBHelper.js`) reads the NAL unit type from the low 5 bits of the
first byte of the NALU, per ITU-T H.264 §7.3.1. -/
def h264GetUnitType (nalu : List Nat) : Nat := nalu.getD 0 0 % 32

/-- Modelled from the spec: `H265Helpers.getUnitType` (in the missing
`AnnexBHelper.js`) reads the NAL unit type from bits 1–6 of the first
byte of the NALU, per ITU-T H.265 §7.3.1.2. -/
def h265GetUnitType (nalu : List Nat) : Nat := nalu.getD 0 0 / 2 % 64

/-- Modelled from the spec: `H264NalUnitTypes.CodedSliceIdr` = 5. -/
def H264CodedSliceIdr : Nat := 5

/-- Modelled from the spec: `H264NalUnitTypes.SPS` = 7. -/
def H264SPS : Nat := 7

/-- Modelled from the spec: `H264NalUnitTypes.PPS` = 8. -/
def H264PPS : Nat := 8

/-- Modelled from the spec: `H265NalUnitTypes.IDR_W_RADL` = 19. -/
def H265IDR_W_RADL : Nat := 19

/-- Modelled from the spec: `H265NalUnitTypes.IDR_N_LP` = 20. -/
def H265IDR_N_LP : Nat := 20

/-- Modelled from the spec: `H265NalUnitTypes.VPS_NUT` = 32. -/
def H265VPS_NUT : Nat := 32

/-- Modelled from the spec: `H265NalUnitTypes.SPS_NUT` = 33. -/
def H265SPS_NUT : Nat := 33

/-- Modelled from the spec: `H265NalUnitTypes.PPS_NUT` = 34. -/
def H265PPS_NUT : Nat := 34

/-- The `{ sps, pps }` record parsed from the avcC atom (`parseavcC`). -/
structure H264ParamSets where
  sps : List (List Nat)
  pps : List (List Nat)
deriving Repr, DecidableEq

/-- The `{ vps, sps, pps }` record parsed from the hvcC atom (`parsehvcC`). -/
structure H265ParamSets where
  vps : List (List Nat)
  sps : List (List Nat)
  pps : List (List Nat)
deriving Repr, DecidableEq

/-- `h264AddParamSets` (`LibavDemuxer.js` lines 79–106), at the NALU-list
level.  The scan loop sets `isIDR`/`hasSPS`/`hasPPS`; then, for an IDR
access unit, the code runs `if (!hasPPS) chunks.push(...sps);
if (!hasSPS) chunks.push(...pps);` and prepends `chunks` to the NALUs. -/
def h264AddParamSets (nalus : List (List Nat)) (paramSets : H264ParamSets) :
    List (List Nat) :=
  let isIDR := nalus.any fun n => h264GetUnitType n == H264CodedSliceIdr
  let hasSPS := nalus.any fun n => h264GetUnitType n == H264SPS
  let hasPPS := nalus.any fun n => h264GetUnitType n == H264PPS
  if !isIDR then nalus
  else
    (if !hasPPS then paramSets.sps else []) ++
      (if !hasSPS then paramSets.pps else []) ++ nalus

/-- `h265AddParamSets` (`LibavDemuxer.js` lines 107–139), at the NALU-list
level.  For an IDR access unit the code runs `if (!hasVPS)
chunks.push(...vps); if (!hasPPS) chunks.push(...sps); if (!hasSPS)
chunks.push(...pps);` and prepends `chunks` to the NALUs. -/
def h265AddParamSets (nalus : List (List Nat)) (paramSets : H265ParamSets) :
    List (List Nat) :=
  let isIDR := nalus.any fun n =>
    h265GetUnitType n == H265IDR_N_LP || h265GetUnitType n == H265IDR_W_RADL
  let hasVPS := nalus.any fun n => h265GetUnitType n == H265VPS_NUT
  let hasSPS := nalus.any fun n => h265GetUnitType n == H265SPS_NUT
  let hasPPS := nalus.any fun n => h265GetUnitType n == H265PPS_NUT
  if !isIDR then nalus
  else
    (if !hasVPS then paramSets.vps else []) ++
      (if !hasPPS then paramSets.sps else []) ++
      (if !hasSPS then paramSets.pps else []) ++ nalus

/-! ## Base RTP packetizer (`BaseMediaPacketizer`, bundled in
`src/dist/client/packet/AudioPacketizer.d.ts`) -/

/-- The mutable state of a `BaseMediaPacketizer`.  `_ssrc` is declared
`private _ssrc?: number` (it starts `undefined`), hence `Option Nat`. -/
structure PacketizerState where
  ssrc : Option Nat
  sequence : Nat
  timestamp : Nat
  totalBytes : Nat
  totalPackets : Nat
  prevTotalPackets : Nat
  lastPacketTime : Nat
  mtu : Nat
  srInterval : Nat
  payloadType : Nat
  extensionEnabled : Bool
deriving Repr, DecidableEq

/-- The `BaseMediaPacketizer` constructor. -/
def initPacketizer (payloadType : Nat) (extensionEnabled : Bool) : PacketizerState :=
  { ssrc := none, sequence := 0, timestamp := 0, totalBytes := 0,
    totalPackets := 0, prevTotalPackets := 0, lastPacketTime := 0,
    mtu := 1200, srInterval := 512,
    payloadType := payloadType, extensionEnabled := extensionEnabled }

/-- JavaScript falsiness check `!this._ssrc`: true when the SSRC is
`undefined` or `0`. -/
def ssrcFalsy : Option Nat → Bool
  | none => true
  | some v => v == 0

/-- The `ssrc` setter: `this._ssrc = value; this._totalBytes =
this._totalPackets = this._prevTotalPackets = 0;`. -/
def setSsrc (value : Nat) (s : PacketizerState) : PacketizerState :=
  { s with ssrc := some value, totalBytes := 0, totalPackets := 0,
           prevTotalPackets := 0 }

/-- `getNewSequence()`: `this._sequence = (this._sequence + 1) %
max_int16bit; return this._sequence;`. -/
def getNewSequence (s : PacketizerState) : Nat × PacketizerState :=
  let n := (s.sequence + 1) % max_int16bit
  (n, { s with sequence := n })

/-- `incrementTimestamp(incrementBy)`. -/
def incrementTimestamp (incrementBy : Nat) (s : PacketizerState) : PacketizerState :=
  { s with timestamp := (s.timestamp + incrementBy) % max_int32bit }

/-- `makeRtpHeader(isLastPacket = true)`: throws "SSRC is not set" when
`!this._ssrc`; otherwise builds the 12-byte RTP header — version/flags
byte `2 << 6 | (extensionEnabled ? 1 : 0) << 4`, payload-type byte with
the marker bit OR-ed in when `isLastPacket`, then the new sequence
number (`getNewSequence`), the timestamp and the SSRC, big-endian. -/
def makeRtpHeader (isLastPacket : Bool) (s : PacketizerState) :
    Except String (List Nat × PacketizerState) :=
  if ssrcFalsy s.ssrc then .error "SSRC is not set"
  else
    let b0 := 2 <<< 6 ||| (if s.extensionEnabled then 1 else 0) <<< 4
    let b1 := if isLastPacket then s.payloadType ||| 128 else s.payloadType
    let (seq, s2) := getNewSequence s
    .ok ([b0, b1] ++ be16 seq ++ be32 s.timestamp ++ be32 (s.ssrc.getD 0), s2)

/-- The marker (M) bit of an RTP header: bit 7 of byte 1. -/
def rtpMarker (header : List Nat) : Bool := (header.getD 1 0).testBit 7

/-- The sequence-number field of an RTP header: bytes 2–3, big-endian. -/
def rtpSeq (header : List Nat) : Nat := readUInt16BE header 2

/-- `new Date("Jan 01 1900 GMT").getTime()`, in milliseconds. -/
def ntpEpoch : Int := -2208988800000

/-- `makeRtcpSenderReport()`: throws "SSRC is not set" when
`!this._ssrc`; otherwise builds the 8-byte RTCP header (`0x80`, `0xc8`,
length `0x0006`, SSRC) and the 20-byte sender-report body (NTP 32.32
timestamp of the last packet wall time, RTP timestamp, total packets
mod 2^32, total bytes).  The body is then AEAD-encrypted with the header
as associated data by the external transport encryptor; we return the
plaintext pieces `(rtcpHeader, senderReport)`. -/
def makeRtcpSenderReport (s : PacketizerState) :
    Except String (List Nat × List Nat) :=
  if ssrcFalsy s.ssrc then .error "SSRC is not set"
  else
    let packetHeader := [0x80, 0xc8, 0x00, 0x06] ++ be32 (s.ssrc.getD 0)
    let ntpTimestamp : ℚ := ((s.lastPacketTime : ℚ) - (ntpEpoch : ℚ)) / 1000
    let ntpTimestampMsw : Int := ⌊ntpTimestamp⌋
    let ntpTimestampLsw : Int :=
      round ((ntpTimestamp - (ntpTimestampMsw : ℚ)) * (max_int32bit : ℚ))
    let senderReport :=
      be32 ntpTimestampMsw.toNat ++ be32 ntpTimestampLsw.toNat ++
        be32 s.timestamp ++ be32 (s.totalPackets % max_int32bit) ++
        be32 s.totalBytes
    .ok (packetHeader, senderReport)

/-- `onFrameSent(packetsSent, bytesSent, frametime)`: early-returns when
`rtcpSenderReportEnabled` is false; otherwise accumulates
`_totalPackets` and `_totalBytes` (the latter mod 2^32) and emits an
RTCP Sender Report exactly when `Math.floor(totalPackets / srInterval) -
Math.floor(prevTotalPackets / srInterval) > 0`, in which case
`_prevTotalPackets` is set to `_totalPackets`.  (Nat truncated
subtraction agrees with the JavaScript comparison `a - b > 0` for
integer operands, and Nat division is floor division.)  Returns the
emitted report, if any. -/
def onFrameSent (rtcpSenderReportEnabled : Bool) (packetsSent bytesSent : Nat)
    (s : PacketizerState) :
    Except String (PacketizerState × Option (List Nat × List Nat)) :=
  if !rtcpSenderReportEnabled then .ok (s, none)
  else
    let s1 := { s with totalPackets := s.totalPackets + packetsSent,
                       totalBytes := (s.totalBytes + bytesSent) % max_int32bit }
    if s1.totalPackets / s1.srInterval - s1.prevTotalPackets / s1.srInterval > 0 then
      match makeRtcpSenderReport s1 with
      | .error e => .error e
      | .ok sr => .ok ({ s1 with prevTotalPackets := s1.totalPackets }, some sr)
    else .ok (s1, none)

/-- `partitionDataMTUSizedChunks(data)`: the while loop pushes
`data.subarray(i, i + size)` with `size = Math.min(len, mtu)` and
advances `i` by `size` until `len` reaches 0, i.e. chunk `i` is
`data.subarray(i·mtu, i·mtu + mtu)` and there are `⌈len / mtu⌉` chunks
(closed form of the loop; for `mtu = 0` the JavaScript loop would not
terminate, but the MTU is fixed at 1200). -/
def partitionDataMTUSizedChunks (mtu : Nat) (data : List Nat) : List (List Nat) :=
  (List.range ((data.length + mtu - 1) / mtu)).map
    fun i => (data.drop (i * mtu)).take mtu

/-! ## Opus and VP8 packetizers -/

/-- `AudioPacketizer.createPacket(chunk)` builds a single packet per
frame: `this.makeRtpHeader()` — with the default `isLastPacket = true` —
then ciphertext, then the first 4 nonce bytes.  We model the RTP header
it produces. -/
def audioCreatePacketHeader (s : PacketizerState) :
    Except String (List Nat × PacketizerState) :=
  makeRtpHeader true s

/-- The `isLastPacket` flags passed by `VideoPacketizerVP8.sendFrame`:
for chunk index `i` out of `k` chunks, `i === data.length - 1`. -/
def vp8LastFlags (k : Nat) : List Bool :=
  (List.range k).map fun i => i == k - 1

/-- Builds one RTP header per flag, threading the packetizer state, as
`VideoPacketizerVP8.sendFrame` does via `createPacket` on each chunk. -/
def makeHeadersForFlags (s : PacketizerState) :
    List Bool → Except String (List (List Nat) × PacketizerState)
  | [] => .ok ([], s)
  | b :: rest =>
    match makeRtpHeader b s with
    | .error e => .error e
    | .ok (h, s1) =>
      match makeHeadersForFlags s1 rest with
      | .error e => .error e
      | .ok (tl, s2) => .ok (h :: tl, s2)

/-- The RTP headers of the packets produced by
`VideoPacketizerVP8.sendFrame(frame)`: the frame is partitioned into
MTU-sized chunks and chunk `i` gets a header with `isLastPacket`
`i === data.length - 1`. -/
def vp8FrameHeaders (s : PacketizerState) (frame : List Nat) :
    Except String (List (List Nat) × PacketizerState) :=
  makeHeadersForFlags s (vp8LastFlags (partitionDataMTUSizedChunks s.mtu frame).length)

/-! ## UDP socket layer (`src/dist/client/voice/MediaUdp.js`) -/

/-- JavaScript `Buffer.indexOf(value, byteOffset)`: the first index ≥
`start` holding `value`, or −1. -/
def bufIndexOfFrom (buf : List Nat) (value : Nat) (start : Nat) : Int :=
  match (buf.drop start).findIdx? (fun b => b == value) with
  | some i => (start + i : Nat)
  | none => -1

/-- JavaScript `Buffer.subarray(start, end)`: a negative `end` counts
from the end of the buffer; both bounds are clamped to `[0, length]`. -/
def jsSubarray (buf : List Nat) (start : Nat) (endIdx : Int) : List Nat :=
  let len : Int := buf.length
  let e := if endIdx < 0 then endIdx + len else endIdx
  let e := max 0 (min e len)
  (buf.take e.toNat).drop start

/-- An ASCII decimal digit. -/
def isDigitByte (b : Nat) : Bool := 48 ≤ b && b ≤ 57

/-- Decimal value of an ASCII digit string. -/
def ipv4PartValue (p : List Nat) : Nat :=
  p.foldl (fun acc b => acc * 10 + (b - 48)) 0

/-- Modelled from the spec: one dotted-quad component accepted by
Node's `net.isIPv4` (whose regex component is
`25[0-5]|2[0-4]\d|1\d\d|[1-9]?\d`): 1–3 ASCII digits, value ≤ 255, no
leading zero except the single digit "0". -/
def isIPv4Part (p : List Nat) : Bool :=
  1 ≤ p.length && p.length ≤ 3 && p.all isDigitByte &&
    ipv4PartValue p ≤ 255 && (p.headD 0 != 48 || p.length == 1)

/-- Modelled from the spec: Node's `net.isIPv4` on an ASCII byte string:
exactly four dot-separated components, each a valid quad component. -/
def isIPv4 (s : List Nat) : Bool :=
  let parts := s.splitOn 46
  parts.length == 4 && parts.all isIPv4Part

/-- The IP string that `parseLocalPacket` extracts from a discovery
reply: `packet.subarray(8, packet.indexOf(0, 8))`. -/
def discoveredIp (message : List Nat) : List Nat :=
  jsSubarray message 8 (bufIndexOfFrom message 0 8)

/-- `parseLocalPacket(message)` (`MediaUdp.js` lines 8–16): reads the
NUL-terminated ASCII string starting at byte 8 as the IP, throws
"Malformed IP address" unless it is a valid IPv4 literal, and reads the
port as big-endian u16 from the last two bytes. -/
def parseLocalPacket (message : List Nat) : Except String (List Nat × Nat) :=
  let ip := discoveredIp message
  if !isIPv4 ip then .error "Malformed IP address"
  else .ok (ip, readUInt16BE message (message.length - 2))

/-- The transport-level state of a `MediaUdp` object: `_ip`, `_port`
(both start `undefined`) and `_ready` (starts `false`). -/
structure UdpState where
  ip : Option (List Nat)
  port : Option Nat
  ready : Bool
deriving Repr, DecidableEq

/-- How the `createUdp` promise settles.  In JavaScript the first
settlement wins: a later `resolve()` after a `reject(...)` is a no-op. -/
inductive PromiseOutcome where
  | resolved
  | rejected (msg : String)
deriving Repr, DecidableEq

/-- Whether the promise was rejected. -/
def PromiseOutcome.isRejected : PromiseOutcome → Bool
  | .resolved => false
  | .rejected _ => true

/-- The 74-byte IP discovery request sent by `createUdp`:
`Buffer.alloc(74)`, `writeUInt16BE(1, 0)`, `writeUInt16BE(70, 2)`,
`writeUInt32BE(audioSsrc, 4)`. -/
def ipDiscoveryRequest (audioSsrc : Nat) : List Nat :=
  [0, 1, 0, 70] ++ be32 audioSsrc ++ List.replicate 66 0

/-- The `message` handler installed by `createUdp` on the discovery
socket: if the first two bytes are not 0x0002 it calls
`reject('wrong handshake packet for udp')` — but execution continues.
It then runs `parseLocalPacket` inside `try`: on success it sets
`_ip`, `_port` and `_ready = true` and calls `resolve()` (a no-op if
already rejected); on a parse error it calls `reject(e)` (a no-op if
already rejected).  Returns the new state and the promise outcome. -/
def udpOnMessage (st : UdpState) (message : List Nat) : UdpState × PromiseOutcome :=
  let typeBad := readUInt16BE message 0 != 2
  match parseLocalPacket message with
  | .ok (ip, port) =>
    ({ ip := some ip, port := some port, ready := true },
     if typeBad then .rejected "wrong handshake packet for udp" else .resolved)
  | .error e =>
    (st, .rejected (if typeBad then "wrong handshake packet for udp" else e))

/-! ## Pacing-stream sync wait (`BaseMediaStream`, `src/unnamed/part_000`)

`_waitForOtherStream` busy-waits (1 ms sleeps) while `this.syncStream`
exists, is not ended, has a defined `pts`, `this._pts` is defined, and
`this._pts - this.syncStream.pts > this._syncTolerance`.
`_processPacket` awaits this loop and then calls `_sendFrame`
synchronously (no intervening `await`), so the state observed at loop
exit is the state at frame emission.  The peer stream runs concurrently,
so it is modelled as a trace of observations indexed by loop iteration;
`this._pts` (last-emitted PTS of this stream, in ms) does not change
while this stream is blocked in the loop. -/

/-- One observation of the sync peer: `writableEnded` and `pts`. -/
structure PeerObs where
  ended : Bool
  pts : Option Int
deriving Repr, DecidableEq

/-- The `while` condition of `_waitForOtherStream`, for one observation
of `this.syncStream` (`none` = no sync stream). -/
def syncWaitCond (myPts : Option Int) (tol : Int) (peer : Option PeerObs) : Bool :=
  match peer with
  | none => false
  | some p =>
    !p.ended &&
      match p.pts, myPts with
      | some q, some mp => decide (mp - q > tol)
      | _, _ => false

/-- The `_waitForOtherStream` loop against a trace `peerAt` of peer
observations: starting at iteration `t`, re-test the condition each
iteration (1 ms apart) and return the iteration at which the loop
exits, or `none` if it is still spinning when `fuel` runs out. -/
def waitForOtherStream (tol : Int) (myPts : Option Int)
    (peerAt : Nat → Option PeerObs) : Nat → Nat → Option Nat
  | 0, t => if syncWaitCond myPts tol (peerAt t) then none else some t
  | fuel + 1, t =>
    if syncWaitCond myPts tol (peerAt t) then
      waitForOtherStream tol myPts peerAt fuel (t + 1)
    else some t

/-- The iteration at which `_processPacket` reaches its `_sendFrame`
call: `_waitForOtherStream` starting at iteration 0. -/
def processPacketEmitTime (tol : Int) (myPts : Option Int)
    (peerAt : Nat → Option PeerObs) (fuel : Nat) : Option Nat :=
  waitForOtherStream tol myPts peerAt fuel 0

/-! ## Helper lemmas -/

/-- `be16` round trip through `readUInt16BE` at offset 2 of an RTP
header (stated in the exact shape `makeRtpHeader` produces). -/
theorem readUInt16BE_header_be16 (a b n : Nat) (r1 r2 : List Nat)
    (hn : n < max_int16bit) :
    readUInt16BE ([a, b] ++ be16 n ++ r1 ++ r2) 2 = n := by
  simp only [readUInt16BE, be16, List.cons_append, List.nil_append,
    List.append_assoc, List.getD_cons_succ, List.getD_cons_zero]
  have h : n < 2 ^ 16 := hn
  norm_num at h ⊢
  omega

/-- Success shape of `makeRtpHeader` when the SSRC is set and nonzero. -/
theorem makeRtpHeader_ok (b : Bool) (s : PacketizerState)
    (hs : ssrcFalsy s.ssrc = false) :
    makeRtpHeader b s = .ok
      ([2 <<< 6 ||| (if s.extensionEnabled then 1 else 0) <<< 4,
        if b then s.payloadType ||| 128 else s.payloadType] ++
          be16 ((s.sequence + 1) % max_int16bit) ++ be32 s.timestamp ++
          be32 (s.ssrc.getD 0),
        { s with sequence := (s.sequence + 1) % max_int16bit }) := by
  simp [makeRtpHeader, hs, getNewSequence]

/-- The marker bit of a header built by `makeRtpHeader` is its
`isLastPacket` argument, for the 7-bit RTP payload types. -/
theorem rtpMarker_payload_byte (x pt : Nat) (b : Bool) (rest : List Nat)
    (hpt : pt < 128) :
    rtpMarker (x :: (if b then pt ||| 128 else pt) :: rest) = b := by
  cases b with
  | false =>
    simp only [rtpMarker, if_neg Bool.false_ne_true, List.getD_cons_succ,
      List.getD_cons_zero, Bool.false_eq]
    exact Nat.testBit_lt_two_pow hpt
  | true =>
    simp only [rtpMarker, if_pos rfl, List.getD_cons_succ, List.getD_cons_zero,
      Nat.testBit_lor]
    have h128 : Nat.testBit 128 7 = true := by decide
    simp [h128]

/-- `makeHeadersForFlags` succeeds whenever the SSRC is set and nonzero,
produces one header per flag, and the marker bit of header `i` is
flag `i`. -/
theorem makeHeadersForFlags_ok (flags : List Bool) :
    ∀ s : PacketizerState, ssrcFalsy s.ssrc = false → s.payloadType < 128 →
    ∃ hsl s2, makeHeadersForFlags s flags = .ok (hsl, s2) ∧
      hsl.length = flags.length ∧
      ∀ i, ∀ hi : i < hsl.length,
        rtpMarker (hsl.get ⟨i, hi⟩) = flags.getD i false := by
  induction flags with
  | nil =>
    intro s _ _
    exact ⟨[], s, rfl, rfl, fun i hi => absurd hi (by simp)⟩
  | cons b rest ih =>
    intro s hs hpt
    obtain ⟨hsl, s2, hok, hlen, hmark⟩ :=
      ih { s with sequence := (s.sequence + 1) % max_int16bit } hs hpt
    refine ⟨([2 <<< 6 ||| (if s.extensionEnabled then 1 else 0) <<< 4,
        if b then s.payloadType ||| 128 else s.payloadType] ++
        be16 ((s.sequence + 1) % max_int16bit) ++ be32 s.timestamp ++
        be32 (s.ssrc.getD 0)) :: hsl, s2, ?_, by simp [hlen], ?_⟩
    · rw [makeHeadersForFlags, makeRtpHeader_ok b s hs]
      simp [hok]
    · intro i hi
      match i with
      | 0 =>
        simpa only [List.get, List.getD_cons_zero, List.cons_append] using
          rtpMarker_payload_byte _ s.payloadType b _ hpt
      | i + 1 =>
        simpa only [List.get, List.getD_cons_succ] using
          hmark i (by simpa using hi)

/-- The flag list used by the VP8 packetizer: entry `i` of `k` is
`i == k - 1`. -/
theorem vp8LastFlags_getD (k i : Nat) (hi : i < k) :
    (vp8LastFlags k).getD i false = decide (i = k - 1) := by
  simp only [vp8LastFlags, List.getD_eq_getElem?_getD, List.getElem?_map,
    List.getElem?_range hi, Option.map_some, Option.getD_some]
  by_cases h : i = k - 1 <;> simp [h]

/-! ## Claim C1 — parameter-set injection on IDR access units -/

/-- C1 (code bug, failing input): for an H.264 IDR access unit that
already contains an SPS but lacks a PPS (NALU bytes `0x67` = SPS,
`0x65` = IDR slice), `h264AddParamSets` — whose conditions
`if (!hasPPS) push sps; if (!hasSPS) push pps` are swapped — emits no
PPS at all (and duplicates the SPS); likewise, for an H.265 IDR access
unit containing an SPS (`0x42`) and an IDR slice (`0x26`) but no PPS,
`h265AddParamSets` emits no PPS.  The claim, that the emitted NALU types
form a superset of {SPS, PPS} (H.264) / {VPS, SPS, PPS} (H.265), fails
on these inputs even though the extradata holds the needed parameter
sets. -/
theorem param_set_injection_conditions_swapped :
    ((h264AddParamSets [[0x67], [0x65]]
        { sps := [[0x67]], pps := [[0x68]] }).any
      (fun n => h264GetUnitType n == H264PPS)) = false ∧
    ((h264AddParamSets [[0x67], [0x65]]
        { sps := [[0x67]], pps := [[0x68]] }).any
      (fun n => h264GetUnitType n == H264CodedSliceIdr)) = true ∧
    h264AddParamSets [[0x67], [0x65]] { sps := [[0x67]], pps := [[0x68]] } =
      [[0x67], [0x67], [0x65]] ∧
    ((h265AddParamSets [[0x42], [0x26]]
        { vps := [[0x40]], sps := [[0x42]], pps := [[0x44]] }).any
      (fun n => h265GetUnitType n == H265PPS_NUT)) = false ∧
    ((h265AddParamSets [[0x42], [0x26]]
        { vps := [[0x40]], sps := [[0x42]], pps := [[0x44]] }).any
      (fun n => h265GetUnitType n == H265IDR_W_RADL)) = true := by
  decide

/-! ## Claim C2 — AEAD nonce layout and counter -/

/-- C2 (counterexample): at counter value 1, the nonce passed to the
AEAD is `writeUInt32BE` at offset 0 — the counter sits in the FIRST
four bytes — not the claimed 32-bit counter "zero-padded on the left"
(counter in the last four bytes); and the 4 bytes appended to the wire
are the first 4 bytes of the nonce, not its low (last) 4 bytes. -/
theorem nonce_left_padded_counterexample :
    ¬(aes256NonceBuffer 1 = List.replicate 8 0 ++ be32 1 ∧
      chacha20NonceBuffer 1 = List.replicate 20 0 ++ be32 1) ∧
    ¬(appendedNonceBytes (aes256NonceBuffer 1) = (aes256NonceBuffer 1).drop 8) := by
  decide

/-- C2 (amended): per `encrypt` call the nonce passed to the AEAD is the
encryptor's 32-bit big-endian counter written into the FIRST four bytes,
zero-padded on the right to the AEAD's nonce width (12 bytes for
AES-256-GCM, 24 for XChaCha20-Poly1305); the counter advances by 1
modulo 2^32 per call; and the 4 nonce bytes appended to the wire packet
are the first 4 bytes of the nonce, i.e. exactly the 32-bit big-endian
counter. -/
theorem nonce_layout_and_counter (s : EncryptorState) :
    aes256NonceBuffer s.nonce = be32 s.nonce ++ List.replicate 8 0 ∧
    chacha20NonceBuffer s.nonce = be32 s.nonce ++ List.replicate 20 0 ∧
    appendedNonceBytes (aes256NonceBuffer s.nonce) = be32 s.nonce ∧
    appendedNonceBytes (chacha20NonceBuffer s.nonce) = be32 s.nonce ∧
    (encryptorStep s).nonce = (s.nonce + 1) % max_int32bit :=
  ⟨rfl, rfl, rfl, rfl, rfl⟩

/-! ## Claim C6 — what the `ssrc` setter resets -/

/-- C6 (counterexample): assigning a new SSRC to a packetizer whose
sequence counter is 5 and timestamp counter is 7 leaves both counters
untouched, contradicting the claim that the whole stream state
(sequence and timestamp included) returns to its initial values. -/
theorem ssrc_setter_full_reset_counterexample :
    ¬((setSsrc 42
        { initPacketizer 120 false with sequence := 5, timestamp := 7 }).sequence = 0 ∧
      (setSsrc 42
        { initPacketizer 120 false with sequence := 5, timestamp := 7 }).timestamp = 0) := by
  decide

/-- C6 (amended): the `ssrc` setter resets exactly `totalBytes`,
`totalPackets` and `prevTotalPackets` to 0 and stores the new SSRC; the
sequence counter, the timestamp counter and every other field keep
their values. -/
theorem ssrc_setter_resets_only_rtcp_counters (v : Nat) (s : PacketizerState) :
    (setSsrc v s).ssrc = some v ∧
    (setSsrc v s).totalBytes = 0 ∧
    (setSsrc v s).totalPackets = 0 ∧
    (setSsrc v s).prevTotalPackets = 0 ∧
    (setSsrc v s).sequence = s.sequence ∧
    (setSsrc v s).timestamp = s.timestamp ∧
    (setSsrc v s).lastPacketTime = s.lastPacketTime ∧
    (setSsrc v s).mtu = s.mtu ∧
    (setSsrc v s).srInterval = s.srInterval :=
  ⟨rfl, rfl, rfl, rfl, rfl, rfl, rfl, rfl, rfl⟩

/-! ## Claim C10 — SSRC 0 is rejected by the falsiness guard -/

/-- C10: `makeRtpHeader` and `makeRtcpSenderReport` guard with the
JavaScript falsiness check `!this._ssrc`, so they throw
"SSRC is not set" both when no SSRC was assigned and when the assigned
SSRC is the valid RTP value 0 — such a session can never construct a
packet. -/
theorem ssrc_zero_treated_as_unset (s : PacketizerState) (b : Bool)
    (h : s.ssrc = none ∨ s.ssrc = some 0) :
    makeRtpHeader b s = .error "SSRC is not set" ∧
    makeRtcpSenderReport s = .error "SSRC is not set" := by
  have hf : ssrcFalsy s.ssrc = true := by
    rcases h with h | h <;> simp [h, ssrcFalsy]
  exact ⟨by simp [makeRtpHeader, hf], by simp [makeRtcpSenderReport, hf]⟩

/-- C10 witness: a packetizer whose server-assigned SSRC is 0. -/
theorem ssrc_zero_treated_as_unset_witness :
    makeRtpHeader true (setSsrc 0 (initPacketizer 120 false)) =
      .error "SSRC is not set" ∧
    makeRtcpSenderReport (setSsrc 0 (initPacketizer 120 false)) =
      .error "SSRC is not set" :=
  ssrc_zero_treated_as_unset (setSsrc 0 (initPacketizer 120 false)) true
    (Or.inr rfl)

/-! ## Claim C3 — RTP sequence numbers -/

/-- C3: for a fixed packetizer (fixed SSRC), two consecutively
constructed RTP headers carry sequence numbers `n₁`, `n₂` with
`n₂ = (n₁ + 1) mod 2^16`, and each `makeRtpHeader` call advances the
sequence counter exactly once. -/
theorem rtp_consecutive_sequence_numbers (s : PacketizerState) (b1 b2 : Bool)
    (hs : ssrcFalsy s.ssrc = false) :
    ∃ h1 s1 h2 s2,
      makeRtpHeader b1 s = .ok (h1, s1) ∧
      makeRtpHeader b2 s1 = .ok (h2, s2) ∧
      rtpSeq h2 = (rtpSeq h1 + 1) % max_int16bit ∧
      s1.sequence = (s.sequence + 1) % max_int16bit ∧
      s2.sequence = (s1.sequence + 1) % max_int16bit := by
  have hlt : ∀ m : Nat, (m + 1) % max_int16bit < max_int16bit :=
    fun m => Nat.mod_lt _ (by decide)
  refine ⟨_, _, _, _, makeRtpHeader_ok b1 s hs, makeRtpHeader_ok b2 _ hs, ?_,
    rfl, rfl⟩
  rw [rtpSeq, rtpSeq, readUInt16BE_header_be16 _ _ _ _ _ (hlt _),
    readUInt16BE_header_be16 _ _ _ _ _ (hlt _)]

/-- C3 witness: a fresh Opus packetizer with SSRC 123 produces headers
with sequence numbers 1 then 2. -/
theorem rtp_consecutive_sequence_numbers_witness :
    ∃ h1 s1 h2 s2,
      makeRtpHeader true (setSsrc 123 (initPacketizer 120 false)) = .ok (h1, s1) ∧
      makeRtpHeader true s1 = .ok (h2, s2) ∧
      rtpSeq h2 = (rtpSeq h1 + 1) % max_int16bit ∧
      s1.sequence = ((setSsrc 123 (initPacketizer 120 false)).sequence + 1) % max_int16bit ∧
      s2.sequence = (s1.sequence + 1) % max_int16bit :=
  rtp_consecutive_sequence_numbers (setSsrc 123 (initPacketizer 120 false))
    true true rfl

/-! ## Claim C4 — marker bits -/

/-- C4: a video frame split by the VP8 packetizer into `k` MTU-sized
chunks yields exactly `k` RTP packets, of which exactly the last has
the marker bit set; and every packet built by the Opus audio packetizer
(one per frame) has the marker bit set.  105 and 120 are the payload
types the two packetizers are constructed with. -/
theorem marker_bit_on_last_video_and_every_audio_packet
    (s t : PacketizerState) (frame : List Nat)
    (hsv : ssrcFalsy s.ssrc = false) (hpv : s.payloadType = 105)
    (hsa : ssrcFalsy t.ssrc = false) (hpa : t.payloadType = 120) :
    (∃ hsl s2, vp8FrameHeaders s frame = .ok (hsl, s2) ∧
      hsl.length = (partitionDataMTUSizedChunks s.mtu frame).length ∧
      ∀ i, ∀ hi : i < hsl.length,
        rtpMarker (hsl.get ⟨i, hi⟩) = decide (i = hsl.length - 1)) ∧
    (∃ hd t2, audioCreatePacketHeader t = .ok (hd, t2) ∧ rtpMarker hd = true) := by
  constructor
  · obtain ⟨hsl, s2, hok, hlen, hmark⟩ :=
      makeHeadersForFlags_ok
        (vp8LastFlags (partitionDataMTUSizedChunks s.mtu frame).length) s hsv
        (by rw [hpv]; decide)
    simp only [vp8LastFlags, List.length_map, List.length_range] at hlen
    refine ⟨hsl, s2, hok, hlen, fun i hi => ?_⟩
    rw [hmark i hi, hlen, vp8LastFlags_getD _ _ (hlen ▸ hi)]
  · refine ⟨_, _, makeRtpHeader_ok true t hsa, ?_⟩
    exact rtpMarker_payload_byte _ t.payloadType true _ (by rw [hpa]; decide)

/-- C4 witness: a VP8 packetizer (payload type 105, extension enabled)
with SSRC 1 on a 1-byte frame, and an Opus packetizer (payload type 120)
with SSRC 2. -/
theorem marker_bit_witness :
    (∃ hsl s2, vp8FrameHeaders (setSsrc 1 (initPacketizer 105 true)) [9] =
        .ok (hsl, s2) ∧
      hsl.length =
        (partitionDataMTUSizedChunks (setSsrc 1 (initPacketizer 105 true)).mtu
          [9]).length ∧
      ∀ i, ∀ hi : i < hsl.length,
        rtpMarker (hsl.get ⟨i, hi⟩) = decide (i = hsl.length - 1)) ∧
    (∃ hd t2, audioCreatePacketHeader (setSsrc 2 (initPacketizer 120 false)) =
        .ok (hd, t2) ∧ rtpMarker hd = true) :=
  marker_bit_on_last_video_and_every_audio_packet
    (setSsrc 1 (initPacketizer 105 true)) (setSsrc 2 (initPacketizer 120 false))
    [9] rfl rfl rfl rfl

/-! ## Claim C5 — IP discovery request and reply validation -/

/-- `makeRtcpSenderReport` succeeds whenever the SSRC is set and
nonzero. -/
theorem makeRtcpSenderReport_ok (s : PacketizerState)
    (hs : ssrcFalsy s.ssrc = false) :
    ∃ r, makeRtcpSenderReport s = .ok r := by
  simp only [makeRtcpSenderReport, hs, Bool.false_eq_true, if_false]
  exact ⟨_, rfl⟩

/-- C5: the IP-discovery request is a 74-byte datagram — u16 BE type 1,
u16 BE length 70 (0x46), u32 BE audio SSRC, zero padding to 74 bytes —
and the `createUdp` promise is rejected whenever the reply's first two
bytes are not 0x0002 or the NUL-terminated string at byte 8 is not a
valid IPv4 literal. -/
theorem ip_discovery_request_and_rejection (ssrc : Nat) (st : UdpState)
    (msg : List Nat) (hs : ssrc < max_int32bit) :
    (ipDiscoveryRequest ssrc).length = 74 ∧
    readUInt16BE (ipDiscoveryRequest ssrc) 0 = 1 ∧
    readUInt16BE (ipDiscoveryRequest ssrc) 2 = 70 ∧
    readUInt32BE (ipDiscoveryRequest ssrc) 4 = ssrc ∧
    (ipDiscoveryRequest ssrc).drop 8 = List.replicate 66 0 ∧
    (readUInt16BE msg 0 ≠ 2 ∨ isIPv4 (discoveredIp msg) = false →
      (udpOnMessage st msg).2.isRejected = true) := by
  refine ⟨by simp [ipDiscoveryRequest, be32], rfl, rfl, ?_, rfl, ?_⟩
  · simp only [ipDiscoveryRequest, readUInt32BE, be32, List.cons_append,
      List.nil_append, List.append_assoc, List.getD_cons_succ,
      List.getD_cons_zero]
    have h : ssrc < 2 ^ 32 := hs
    norm_num at h ⊢
    omega
  · intro h
    cases hp : parseLocalPacket msg with
    | error e =>
      unfold udpOnMessage
      rw [hp]
      rfl
    | ok v =>
      have hip : isIPv4 (discoveredIp msg) = true := by
        cases hb : isIPv4 (discoveredIp msg)
        · unfold parseLocalPacket at hp
          simp [hb] at hp
        · rfl
      have ht2 : (readUInt16BE msg 0 != 2) = true := by
        rcases h with h | h
        · simpa using h
        · rw [hip] at h
          cases h
      obtain ⟨ip, port⟩ := v
      unfold udpOnMessage
      rw [hp]
      simp [ht2]
      rfl

/-- C5 witness: SSRC 1234 and the empty reply (type field reads 0). -/
theorem ip_discovery_request_and_rejection_witness :
    (ipDiscoveryRequest 1234).length = 74 ∧
    readUInt16BE (ipDiscoveryRequest 1234) 0 = 1 ∧
    readUInt16BE (ipDiscoveryRequest 1234) 2 = 70 ∧
    readUInt32BE (ipDiscoveryRequest 1234) 4 = 1234 ∧
    (ipDiscoveryRequest 1234).drop 8 = List.replicate 66 0 ∧
    (readUInt16BE [] 0 ≠ 2 ∨ isIPv4 (discoveredIp []) = false →
      (udpOnMessage ⟨none, none, false⟩ []).2.isRejected = true) :=
  ip_discovery_request_and_rejection 1234 ⟨none, none, false⟩ [] (by decide)

/-! ## Claim C9 — rejected handshake still mutates the transport state -/

/-- C9: a discovery reply whose type field is not 0x0002 but which
otherwise parses (valid IPv4 at byte 8, port in the last two bytes)
makes `createUdp` reject the promise, yet the handler still stores the
reply's IP and port on the `MediaUdp` object and sets `_ready = true`. -/
theorem udp_bad_type_rejects_but_mutates (st : UdpState) (msg : List Nat)
    (ip : List Nat) (port : Nat)
    (ht : readUInt16BE msg 0 ≠ 2)
    (hp : parseLocalPacket msg = .ok (ip, port)) :
    udpOnMessage st msg =
      ({ ip := some ip, port := some port, ready := true },
        .rejected "wrong handshake packet for udp") := by
  have ht2 : (readUInt16BE msg 0 != 2) = true := by simpa using ht
  unfold udpOnMessage
  rw [hp, ht2]
  simp

/-- C9 witness: a 72-byte reply with type 0x0003, IP "1.2.3.4" at byte 8
and port 12345 in the last two bytes, received in the initial transport
state. -/
theorem udp_bad_type_rejects_but_mutates_witness :
    udpOnMessage ⟨none, none, false⟩
        ([0, 3, 0, 70, 0, 0, 0, 0] ++ [49, 46, 50, 46, 51, 46, 52] ++ [0] ++
          List.replicate 55 0 ++ [48, 57]) =
      ({ ip := some [49, 46, 50, 46, 51, 46, 52], port := some 12345,
          ready := true },
        .rejected "wrong handshake packet for udp") :=
  udp_bad_type_rejects_but_mutates ⟨none, none, false⟩ _
    [49, 46, 50, 46, 51, 46, 52] 12345 (by decide) (by decide)

/-! ## Claim C7 — RTCP Sender Report emission -/

/-- C7: with Sender Reports disabled, `onFrameSent` does nothing; with
them enabled it accumulates `totalPackets` and `totalBytes` (the latter
modulo 2^32) and emits a Sender Report exactly when
`⌊totalPackets / srInterval⌋` (after adding the packets just sent)
strictly exceeds `⌊prevTotalPackets / srInterval⌋`, in which case
`prevTotalPackets` is advanced to the new total. -/
theorem rtcp_sr_emission_condition (p b : Nat) (s : PacketizerState)
    (hssrc : ssrcFalsy s.ssrc = false) :
    onFrameSent false p b s = .ok (s, none) ∧
    ∃ s2 osr, onFrameSent true p b s = .ok (s2, osr) ∧
      (osr.isSome = true ↔
        s.prevTotalPackets / s.srInterval < (s.totalPackets + p) / s.srInterval) ∧
      s2.totalBytes = (s.totalBytes + b) % max_int32bit ∧
      s2.totalPackets = s.totalPackets + p ∧
      s2.prevTotalPackets =
        (if osr.isSome then s.totalPackets + p else s.prevTotalPackets) := by
  refine ⟨rfl, ?_⟩
  by_cases hc : (s.totalPackets + p) / s.srInterval -
      s.prevTotalPackets / s.srInterval > 0
  · obtain ⟨r, hr⟩ := makeRtcpSenderReport_ok
      { s with totalPackets := s.totalPackets + p,
               totalBytes := (s.totalBytes + b) % max_int32bit } hssrc
    refine ⟨{ s with totalPackets := s.totalPackets + p, totalBytes := (s.totalBytes + b) % max_int32bit, prevTotalPackets := s.totalPackets + p }, some r, ?_, ?_, rfl, rfl, rfl⟩
    · unfold onFrameSent
      rw [if_neg (by simp), if_pos (by exact hc), hr]
    · simp only [Option.isSome_some, true_iff]
      omega
  · refine ⟨{ s with totalPackets := s.totalPackets + p, totalBytes := (s.totalBytes + b) % max_int32bit }, none, ?_, ?_, rfl, rfl, rfl⟩
    · unfold onFrameSent
      rw [if_neg (by simp), if_neg (by exact hc)]
    · simp only [Option.isSome_none, Bool.false_eq_true, false_iff]
      omega

/-- C7 witness: an Opus packetizer with SSRC 7 (srInterval 512) after
512 packets and 100 bytes. -/
theorem rtcp_sr_emission_condition_witness :
    onFrameSent false 512 100 (setSsrc 7 (initPacketizer 120 false)) =
      .ok (setSsrc 7 (initPacketizer 120 false), none) ∧
    ∃ s2 osr, onFrameSent true 512 100 (setSsrc 7 (initPacketizer 120 false)) =
        .ok (s2, osr) ∧
      (osr.isSome = true ↔
        (setSsrc 7 (initPacketizer 120 false)).prevTotalPackets /
            (setSsrc 7 (initPacketizer 120 false)).srInterval <
          ((setSsrc 7 (initPacketizer 120 false)).totalPackets + 512) /
            (setSsrc 7 (initPacketizer 120 false)).srInterval) ∧
      s2.totalBytes = ((setSsrc 7 (initPacketizer 120 false)).totalBytes + 100) %
        max_int32bit ∧
      s2.totalPackets = (setSsrc 7 (initPacketizer 120 false)).totalPackets + 512 ∧
      s2.prevTotalPackets =
        (if osr.isSome then (setSsrc 7 (initPacketizer 120 false)).totalPackets + 512
         else (setSsrc 7 (initPacketizer 120 false)).prevTotalPackets) :=
  rtcp_sr_emission_condition 512 100 (setSsrc 7 (initPacketizer 120 false)) rfl

/-! ## Claim C8 — A/V sync wait -/

/-- When the `_waitForOtherStream` loop exits, its condition is false at
the observation made at the exit iteration. -/
theorem waitForOtherStream_exit_cond_false (tol : Int) (myPts : Option Int)
    (peerAt : Nat → Option PeerObs) :
    ∀ fuel t texit, waitForOtherStream tol myPts peerAt fuel t = some texit →
      syncWaitCond myPts tol (peerAt texit) = false := by
  intro fuel
  induction fuel with
  | zero =>
    intro t texit h
    rw [waitForOtherStream] at h
    by_cases hc : syncWaitCond myPts tol (peerAt t) = true
    · rw [if_pos hc] at h
      cases h
    · rw [if_neg hc] at h
      cases h
      simpa using hc
  | succ fuel ih =>
    intro t texit h
    rw [waitForOtherStream] at h
    by_cases hc : syncWaitCond myPts tol (peerAt t) = true
    · rw [if_pos hc] at h
      exact ih (t + 1) texit h
    · rw [if_neg hc] at h
      cases h
      simpa using hc

/-- C8: whenever `_processPacket` reaches its `_sendFrame` call (the
sync-wait loop exited at iteration `texit`; the frame is emitted
synchronously right after, with no intervening await) and the sync peer
at that moment exists, has not ended and has a defined PTS, this
stream's PTS is at most `syncTolerance` milliseconds ahead of the
peer's last-emitted PTS. -/
theorem sync_wait_never_ahead (tol mp q : Int) (peerAt : Nat → Option PeerObs)
    (fuel texit : Nat) (p : PeerObs)
    (hexit : processPacketEmitTime tol (some mp) peerAt fuel = some texit)
    (hpeer : peerAt texit = some p) (hended : p.ended = false)
    (hpts : p.pts = some q) :
    mp - q ≤ tol := by
  have hcond := waitForOtherStream_exit_cond_false tol (some mp) peerAt fuel 0
    texit hexit
  rw [hpeer] at hcond
  simp [syncWaitCond, hended, hpts] at hcond
  omega

/-- C8 witness: tolerance 5 ms, own PTS 5, live peer at PTS 3: the loop
exits immediately at iteration 0 and the drift 5 − 3 is within
tolerance. -/
theorem sync_wait_never_ahead_witness :
    processPacketEmitTime 5 (some 5) (fun _ => some ⟨false, some 3⟩) 0 = some 0 ∧
    (5 : Int) - 3 ≤ 5 :=
  ⟨rfl, sync_wait_never_ahead 5 5 3 (fun _ => some ⟨false, some 3⟩) 0 0
    ⟨false, some 3⟩ rfl rfl rfl rfl⟩

end DiscordVideoStream
